import Mathlib

/-!
# Verification of the cc-top ingestion-through-evaluation core

A shallow embedding of the cc-top state store (`internal/state`), OTLP
receiver session-id extraction (`internal/receiver/receiver.go`), alert
engine deduplication (`internal/alerts/engine.go`), and telemetry
classifier (`internal/scanner/classifier.go`), together with theorems
settling the testable properties stated in the specification.

Modelling conventions:
- Go `float64` values are modelled as exact rationals (`ℚ`); the claims
  under study concern the delta-tracking algorithm, not IEEE rounding.
- Go `time.Time` is modelled as an integer timestamp, with `0` playing
  the role of the zero `time.Time` (`IsZero`).  Calls to `time.Now()`
  inside store operations are made explicit as a `now` argument.
- Go maps are modelled as association lists with map-like update
  (replace the existing binding, else append), which matches Go map
  lookup/update semantics key-by-key.
-/

namespace CcTop

/-- A Go `map[string]string` of attributes, as an association list. -/
abbrev AttrMap := List (String × String)

/-- Go map lookup `m[k]` (with `ok`): the binding for `k`, if any. -/
def lookupAttr : AttrMap → String → Option String
  | [], _ => none
  | (k0, v0) :: rest, k => if k0 = k then some v0 else lookupAttr rest k

/-- Lexicographic comparison of char lists by code point (agrees with
Go's byte-wise string order, since UTF-8 preserves code-point order). -/
def leCharList : List Char → List Char → Bool
  | [], _ => true
  | _ :: _, [] => false
  | a :: as, b :: bs =>
      if a.toNat < b.toNat then true
      else if b.toNat < a.toNat then false
      else leCharList as bs

/-- String order used by Go's `sort.Strings`. -/
def leString (a b : String) : Bool :=
  leCharList a.data b.data

/-- Insert a string into an ascending-sorted list (helper for `sortStrings`). -/
def insertSorted (x : String) : List String → List String
  | [] => [x]
  | y :: ys => if leString x y then x :: y :: ys else y :: insertSorted x ys

/-- Ascending sort of strings, embedding Go's `sort.Strings`. -/
def sortStrings (l : List String) : List String :=
  l.foldr insertSorted []

/-- A metric data point (`state.Metric`). -/
structure Metric where
  name : String
  value : ℚ
  attributes : AttrMap
  timestamp : ℤ
deriving DecidableEq

/-- A log event (`state.Event`). -/
structure Event where
  name : String
  attributes : AttrMap
  timestamp : ℤ
deriving DecidableEq

/-- Per-session state (`state.SessionData`). -/
structure SessionData where
  sessionID : String
  pid : ℤ
  startedAt : ℤ
  lastEventAt : ℤ
  exited : Bool
  model : String
  terminal : String
  cwd : String
  totalCost : ℚ
  totalTokens : ℤ
  activeTime : ℤ
  metrics : List Metric
  events : List Event
  previousValues : List (String × ℚ)
deriving DecidableEq

/-- The sessions map of a `state.MemoryStore` (`map[string]*SessionData`). -/
abbrev MemoryStore := List (String × SessionData)

/-- The empty store produced by `NewMemoryStore`. -/
def emptyStore : MemoryStore := []

/-- Modelled from the spec: the sentinel session id `"unknown"` (the
constant `UnknownSessionID` is declared outside the provided sources). -/
def UnknownSessionID : String := "unknown"

/-- `resolveSessionID`: the provided id if non-empty, else the sentinel. -/
def resolveSessionID (sessionID : String) : String :=
  if sessionID = "" then UnknownSessionID else sessionID

/-- The fresh session allocated by `getOrCreateSession`: `StartedAt` is the
current time, `PreviousValues` an empty map, every other field Go-zero. -/
def newSession (sid : String) (now : ℤ) : SessionData :=
  { sessionID := sid
    pid := 0
    startedAt := now
    lastEventAt := 0
    exited := false
    model := ""
    terminal := ""
    cwd := ""
    totalCost := 0
    totalTokens := 0
    activeTime := 0
    metrics := []
    events := []
    previousValues := [] }

/-- Go map lookup `ms.sessions[sessionID]`. -/
def getSessionRaw : MemoryStore → String → Option SessionData
  | [], _ => none
  | (k, v) :: rest, sid => if k = sid then some v else getSessionRaw rest sid

/-- Go map update `ms.sessions[sid] = s`. -/
def putSession : MemoryStore → String → SessionData → MemoryStore
  | [], sid, s => [(sid, s)]
  | (k, v) :: rest, sid, s =>
      if k = sid then (sid, s) :: rest else (k, v) :: putSession rest sid s

/-- Lookup in the `PreviousValues` map. -/
def lookupPV : List (String × ℚ) → String → Option ℚ
  | [], _ => none
  | (k0, v0) :: rest, k => if k0 = k then some v0 else lookupPV rest k

/-- Update in the `PreviousValues` map (`s.PreviousValues[key] = value`). -/
def setPV : List (String × ℚ) → String → ℚ → List (String × ℚ)
  | [], k, v => [(k, v)]
  | (k0, v0) :: rest, k, v =>
      if k0 = k then (k, v) :: rest else (k0, v0) :: setPV rest k v

/-- `metricKey`: `name` when no attributes, else
`name ++ "|" ++ "k1=v1,k2=v2"` with attribute keys sorted ascending. -/
def metricKey (name : String) (attrs : AttrMap) : String :=
  if attrs = [] then name
  else
    let keys := sortStrings (attrs.map (fun p => p.1))
    let parts := keys.map (fun k => k ++ "=" ++ (lookupAttr attrs k).getD "")
    name ++ "|" ++ String.intercalate "," parts

/-- Go's numeric conversion `int64(x)` on a float: truncation toward zero. -/
def goTrunc (q : ℚ) : ℤ :=
  q.num.tdiv (q.den : ℤ)

/-- The `switch m.Name` aggregation step inside `AddMetric`. -/
def applyMetricAggregate (s : SessionData) (name : String) (delta : ℚ) : SessionData :=
  if name = "claude_code.cost.usage" then
    { s with totalCost := s.totalCost + delta }
  else if name = "claude_code.token.usage" then
    { s with totalTokens := s.totalTokens + goTrunc delta }
  else if name = "claude_code.active_time.total" then
    { s with activeTime := s.activeTime + goTrunc (delta * 1000000000) }
  else s

/-- The `model` attribute extraction inside `AddMetric`. -/
def updateModelFromAttrs (s : SessionData) (attrs : AttrMap) : SessionData :=
  match lookupAttr attrs "model" with
  | some model => if model ≠ "" then { s with model := model } else s
  | none => s

/-- The `terminal.type` attribute extraction inside `AddMetric`. -/
def updateTerminalFromAttrs (s : SessionData) (attrs : AttrMap) : SessionData :=
  match lookupAttr attrs "terminal.type" with
  | some t => if t ≠ "" then { s with terminal := t } else s
  | none => s

/-- The per-session body of `AddMetric`, acting on the bucket `s`:
append the metric, set `LastEventAt` from the carried timestamp (falling
back to `now` when zero), record the raw value under the counter key,
compute the delta with counter-reset handling, and apply the per-name
aggregation and attribute extraction. -/
def addMetricSession (s : SessionData) (m : Metric) (now : ℤ) : SessionData :=
  let s := { s with metrics := s.metrics ++ [m] }
  let s := { s with lastEventAt := if m.timestamp ≠ 0 then m.timestamp else now }
  let key := metricKey m.name m.attributes
  let prevOpt := lookupPV s.previousValues key
  let s := { s with previousValues := setPV s.previousValues key m.value }
  let delta :=
    match prevOpt with
    | none => m.value
    | some prev => if m.value - prev < 0 then m.value else m.value - prev
  let s := applyMetricAggregate s m.name delta
  let s := updateModelFromAttrs s m.attributes
  updateTerminalFromAttrs s m.attributes

/-- `MemoryStore.AddMetric`, the wall clock passed explicitly as `now`:
resolve the session id, get-or-create the bucket, apply the per-session
body, store the result. -/
def addMetric (sessionID : String) (m : Metric) (now : ℤ) (st : MemoryStore) : MemoryStore :=
  let sid := resolveSessionID sessionID
  putSession st sid
    (addMetricSession ((getSessionRaw st sid).getD (newSession sid now)) m now)

/-- The per-session body of `AddEvent`: append the event, set
`LastEventAt`, extract the model from `api_request` events. -/
def addEventSession (s : SessionData) (e : Event) (now : ℤ) : SessionData :=
  let s := { s with events := s.events ++ [e] }
  let s := { s with lastEventAt := if e.timestamp ≠ 0 then e.timestamp else now }
  if e.name = "claude_code.api_request" then
    match lookupAttr e.attributes "model" with
    | some model => if model ≠ "" then { s with model := model } else s
    | none => s
  else s

/-- `MemoryStore.AddEvent` (the listener fan-out, which hands the stored
event to registered callbacks outside the lock, has no effect on the
store state and is outside the claims under study). -/
def addEvent (sessionID : String) (e : Event) (now : ℤ) (st : MemoryStore) : MemoryStore :=
  let sid := resolveSessionID sessionID
  putSession st sid
    (addEventSession ((getSessionRaw st sid).getD (newSession sid now)) e now)

/-- `MemoryStore.UpdatePID`: create-or-update, set `PID` only. -/
def updatePID (sessionID : String) (pid : ℤ) (now : ℤ) (st : MemoryStore) : MemoryStore :=
  let s := (getSessionRaw st sessionID).getD (newSession sessionID now)
  putSession st sessionID { s with pid := pid }

/-- The range loop of `MarkExited`: flip `Exited` on each session whose
`PID` matches. -/
def markExitedList (pid : ℤ) : MemoryStore → MemoryStore
  | [] => []
  | (k, s) :: rest =>
      (k, if s.pid = pid then { s with exited := true } else s) :: markExitedList pid rest

/-- `MemoryStore.MarkExited`: no-op for pid 0, else flip `Exited` on every
session whose `PID` matches. -/
def markExited (pid : ℤ) (st : MemoryStore) : MemoryStore :=
  if pid = 0 then st
  else markExitedList pid st

/-! ## Cumulative-counter sequences (claims about the counter-reset law) -/

/-- A `claude_code.cost.usage` sample carrying value `v` (no attributes,
timestamp 1, i.e. non-zero). -/
def costMetric (v : ℚ) : Metric :=
  { name := "claude_code.cost.usage", value := v, attributes := [], timestamp := 1 }

/-- A `claude_code.token.usage` sample carrying value `v` under attribute
map `attrs` (timestamp 1). -/
def tokenMetric (v : ℚ) (attrs : AttrMap) : Metric :=
  { name := "claude_code.token.usage", value := v, attributes := attrs, timestamp := 1 }

/-- Write a sequence of cost samples for session `"sess-1"` through
`AddMetric`, in order. -/
def writeCosts (st : MemoryStore) (vs : List ℚ) : MemoryStore :=
  vs.foldl (fun st v => addMetric "sess-1" (costMetric v) 1 st) st

/-- The per-sample delta the code computes when a previous value exists:
`v − prev`, except that a counter reset (`v < prev`) yields `v`. -/
def deltaFrom (prev v : ℚ) : ℚ :=
  if v - prev < 0 then v else v - prev

/-- Sum of code deltas over the tail of a sequence, given the previous value. -/
def sumDeltas (prev : ℚ) : List ℚ → ℚ
  | [] => 0
  | v :: vs => deltaFrom prev v + sumDeltas v vs

/-- The total the code accumulates over a cumulative-counter sequence:
`v₀` plus the code delta of each later sample. -/
def codeCounterTotal : List ℚ → ℚ
  | [] => 0
  | v :: vs => v + sumDeltas v vs

/-- The last element of a value sequence, with default (the raw
cumulative value left in `previous_values` after a run of writes). -/
def lastD (d : ℚ) : List ℚ → ℚ
  | [] => d
  | v :: vs => lastD v vs

/-- Sum of the integer-truncated code deltas over the tail of a token
sequence, given the previous value. -/
def sumTokenDeltas (prev : ℚ) : List ℚ → ℤ
  | [] => 0
  | v :: vs => goTrunc (deltaFrom prev v) + sumTokenDeltas v vs

/-- The total the code accumulates in `total_tokens` over a
cumulative-counter sequence of `token.usage` samples. -/
def codeTokenTotal : List ℚ → ℤ
  | [] => 0
  | v :: vs => goTrunc v + sumTokenDeltas v vs

/-- Write a sequence of token samples (empty attribute map) for session
`"sess-1"` through `AddMetric`, in order. -/
def writeTokens (st : MemoryStore) (vs : List ℚ) : MemoryStore :=
  vs.foldl (fun st v => addMetric "sess-1" (tokenMetric v []) 1 st) st

/-- Tail of the spec's counter-reset law (helper for `specCounterTotal`). -/
def specMaxTail (prev : ℚ) : List ℚ → ℚ
  | [] => 0
  | v :: vs => max (v - prev) v + specMaxTail v vs

/-- The spec's counter-reset law P2, following the spec's words:
`v₀ + Σᵢ≥1 max(vᵢ − vᵢ₋₁, vᵢ)`. -/
def specCounterTotal : List ℚ → ℚ
  | [] => 0
  | v :: vs => v + specMaxTail v vs

/-! ## Reference-semantics model of `copySession` (claim C3)

Go maps are references: copying a `Metric` struct copies the map
*reference* held in its `Attributes` field, not the map contents.  To
state aliasing facts we re-express the session data with explicit heap
cells for the attribute maps of metrics/events and for the
`PreviousValues` map, exactly the objects `copySession` does or does not
re-allocate. -/

/-- A metric whose `Attributes` map is a heap reference. -/
structure MetricR where
  name : String
  value : ℚ
  attrRef : ℕ
  timestamp : ℤ
deriving DecidableEq

/-- An event whose `Attributes` map is a heap reference. -/
structure EventR where
  name : String
  attrRef : ℕ
  timestamp : ℤ
deriving DecidableEq

/-- Session data with map-valued fields as heap references. -/
structure SessionR where
  sessionID : String
  pid : ℤ
  startedAt : ℤ
  lastEventAt : ℤ
  exited : Bool
  model : String
  terminal : String
  cwd : String
  totalCost : ℚ
  totalTokens : ℤ
  activeTime : ℤ
  metrics : List MetricR
  events : List EventR
  pvRef : ℕ
deriving DecidableEq

/-- The heap of live Go map objects: attribute maps and
previous-values maps, addressed by index. -/
structure Heap where
  attrCells : List AttrMap
  pvCells : List (List (String × ℚ))
deriving DecidableEq

/-- `MemoryStore.copySession`: `cp := *s` copies every field (so each
metric's/event's `Attributes` reference and the slice contents are
copied as-is); the `Metrics`/`Events` slices get fresh backing arrays
with the same elements; a *non-empty* `PreviousValues` map is copied
into a freshly allocated map (a new heap cell). -/
def copySession (h : Heap) (s : SessionR) : Heap × SessionR :=
  if (h.pvCells.getD s.pvRef []).length > 0 then
    ({ h with pvCells := h.pvCells ++ [h.pvCells.getD s.pvRef []] },
     { s with pvRef := h.pvCells.length })
  else (h, s)

/-- `MemoryStore.GetSession` in the reference model: look up the session
and return a `copySession` snapshot (with the possibly-grown heap). -/
def getSessionRefModel (h : Heap) (sessions : List (String × SessionR)) (sid : String) :
    Option (Heap × SessionR) :=
  ((sessions.find? (fun p => p.1 == sid)).map (fun p => copySession h p.2))

/-- Update key `k` to `v` in an attribute map (Go map assignment). -/
def setAttr : AttrMap → String → String → AttrMap
  | [], k, v => [(k, v)]
  | (k0, v0) :: rest, k, v =>
      if k0 = k then (k, v) :: rest else (k0, v0) :: setAttr rest k v

/-- A reader mutating an attribute map it can reach through a snapshot:
write `k ↦ v` into heap cell `r`. -/
def writeAttrCell (h : Heap) (r : ℕ) (k v : String) : Heap :=
  { h with attrCells := h.attrCells.set r (setAttr (h.attrCells.getD r []) k v) }

/-- A reader mutating a previous-values map it can reach through a
snapshot: write `k ↦ v` into pv heap cell `r`. -/
def writePvCell (h : Heap) (r : ℕ) (k : String) (v : ℚ) : Heap :=
  { h with pvCells := h.pvCells.set r (setPV (h.pvCells.getD r []) k v) }

/-- What a reader observes in a metric: the reference resolved to the
current contents of its attribute-map cell. -/
def resolveMetric (h : Heap) (m : MetricR) : Metric :=
  { name := m.name, value := m.value,
    attributes := h.attrCells.getD m.attrRef [], timestamp := m.timestamp }

/-- What a reader observes in an event. -/
def resolveEvent (h : Heap) (e : EventR) : Event :=
  { name := e.name, attributes := h.attrCells.getD e.attrRef [],
    timestamp := e.timestamp }

/-- What a reader observes in a session: every map reference resolved to
its current contents. -/
def resolveSession (h : Heap) (s : SessionR) : SessionData :=
  { sessionID := s.sessionID
    pid := s.pid
    startedAt := s.startedAt
    lastEventAt := s.lastEventAt
    exited := s.exited
    model := s.model
    terminal := s.terminal
    cwd := s.cwd
    totalCost := s.totalCost
    totalTokens := s.totalTokens
    activeTime := s.activeTime
    metrics := s.metrics.map (resolveMetric h)
    events := s.events.map (resolveEvent h)
    previousValues := h.pvCells.getD s.pvRef [] }

/-! ## OTLP receiver: session-id extraction (`receiver.go`) -/

/-- An OTLP `AnyValue` restricted to the scalar cases the receiver
coerces (`anyValueToString`).  The IEEE double payload is modelled as an
exact rational. -/
inductive AnyValue where
  | stringValue (s : String)
  | intValue (i : ℤ)
  | doubleValue (d : ℚ)
  | boolValue (b : Bool)
deriving DecidableEq

/-- An OTLP `KeyValue` attribute. -/
structure KeyValue where
  key : String
  value : AnyValue
deriving DecidableEq

/-- An OTLP `Resource`: its attribute list. -/
structure Resource where
  attributes : List KeyValue
deriving DecidableEq

/-- Decimal digits of `r / d` (fuelled; terminates early when the
remainder vanishes).  Helper for `formatRat`. -/
def fracDigitsAux : ℕ → ℕ → ℕ → String
  | 0, _, _ => ""
  | fuel + 1, r, d =>
      if r = 0 then ""
      else toString (r * 10 / d) ++ fracDigitsAux fuel (r * 10 % d) d

/-- Models `strconv.FormatFloat(v, 'f', -1, 64)` on doubles whose
shortest round-trip representation is their exact decimal expansion
(IEEE binary64 rounding is abstracted away by the rational payload). -/
def formatRat (q : ℚ) : String :=
  let n := q.num.natAbs
  let d := q.den
  let frac := fracDigitsAux 400 (n % d) d
  (if q.num < 0 then "-" else "") ++ toString (n / d) ++
    (if frac = "" then "" else "." ++ frac)

/-- `anyValueToString`: string as-is, int via `FormatInt` base 10,
double via `FormatFloat`, bool via `FormatBool`. -/
def anyValueToString : AnyValue → String
  | .stringValue s => s
  | .intValue i => toString i
  | .doubleValue d => formatRat d
  | .boolValue b => if b then "true" else "false"

/-- First attribute with key `session.id`, if any (the receiver's linear
scan returns on the first match). -/
def findSessionKV (kvs : List KeyValue) : Option KeyValue :=
  kvs.find? (fun kv => kv.key == "session.id")

/-- `extractSessionID`: search the resource attributes first for
`session.id`, then the per-datapoint / per-log-record attributes;
absent in both yields the empty string. -/
def extractSessionID (resource : Option Resource) (attrs : List KeyValue) : String :=
  match resource.bind (fun r => findSessionKV r.attributes) with
  | some kv => anyValueToString kv.value
  | none =>
      match findSessionKV attrs with
      | some kv => anyValueToString kv.value
      | none => ""

/-! ## Alert engine deduplication (`engine.go`) -/

/-- Alert severity. -/
inductive Severity where
  | warning
  | critical
deriving DecidableEq

/-- An alert produced by a rule.  `firedAt` is in seconds. -/
structure Alert where
  rule : String
  severity : Severity
  sessionID : String
  message : String
  firedAt : ℤ
deriving DecidableEq

/-- Modelled from the spec: `alert_key` = `rule|session_id` (the
`alertKey` method is declared outside the provided sources). -/
def Alert.alertKey (a : Alert) : String :=
  a.rule ++ "|" ++ a.sessionID

/-- Lookup in the engine's `lastFired` map. -/
def lookupFired : List (String × ℤ) → String → Option ℤ
  | [], _ => none
  | (k0, t0) :: rest, k => if k0 = k then some t0 else lookupFired rest k

/-- Update in the engine's `lastFired` map. -/
def setFired : List (String × ℤ) → String → ℤ → List (String × ℤ)
  | [], k, t => [(k, t)]
  | (k0, t0) :: rest, k, t =>
      if k0 = k then (k, t) :: rest else (k0, t0) :: setFired rest k t

/-- The dedup-relevant engine state: active alert list, `lastFired`
index, dedup window (`dedupTTL`, seconds). -/
structure EngineState where
  alerts : List Alert
  lastFired : List (String × ℤ)
  dedupTTL : ℤ
deriving DecidableEq

/-- The default dedup window set by `NewEngine`: 60 seconds. -/
def defaultDedupTTL : ℤ := 60

/-- `Engine.isDuplicate`: the alert's key was fired strictly less than
the dedup window before `alert.FiredAt`. -/
def isDuplicate (e : EngineState) (a : Alert) : Bool :=
  match lookupFired e.lastFired a.alertKey with
  | none => false
  | some t => a.firedAt - t < e.dedupTTL

/-- `Engine.recordFired`: stamp the key with the alert's fire time, then
prune entries older than twice the window. -/
def recordFired (e : EngineState) (a : Alert) : EngineState :=
  let lf := setFired e.lastFired a.alertKey a.firedAt
  { e with lastFired := lf.filter (fun p => !(a.firedAt - p.2 > 2 * e.dedupTTL)) }

/-- The per-alert loop body of `Engine.evaluate`: duplicates are skipped,
non-duplicates are recorded and collected into `newAlerts`. -/
def processTriggered (e : EngineState) (triggered : List Alert) :
    EngineState × List Alert :=
  triggered.foldl
    (fun p a => if isDuplicate p.1 a then p else (recordFired p.1 a, p.2 ++ [a]))
    (e, [])

/-- One `Engine.evaluate` cycle over the alerts the rules returned:
the resulting engine state (non-duplicates appended to the active list)
and the list of alerts dispatched to the notifier. -/
def evaluateEngine (e : EngineState) (triggered : List Alert) :
    EngineState × List Alert :=
  let p := processTriggered e triggered
  ({ p.1 with alerts := p.1.alerts ++ p.2 }, p.2)

/-! ## Telemetry classifier (`classifier.go`) -/

/-- Telemetry status lattice. -/
inductive TelemetryStatus where
  | connected
  | unknown
  | off
  | consoleOnly
  | wrongPort
  | waiting
deriving DecidableEq

/-- `StatusInfo`: status plus display icon and label. -/
structure StatusInfo where
  status : TelemetryStatus
  icon : String
  label : String
deriving DecidableEq

/-- Modelled from the spec: the `ProcessInfo` fields the classifier
consumes (the struct is declared outside the provided sources); spec
section 3 lists `pid`, `binary_name`, `env_readable`, `env_vars` among
its fields. -/
structure ProcessInfo where
  pid : ℤ
  binaryName : String
  envReadable : Bool
  envVars : AttrMap
deriving DecidableEq

/-- Is `p` a prefix of `s` (char lists)? -/
def isPrefixCL : List Char → List Char → Bool
  | [], _ => true
  | _ :: _, [] => false
  | p :: ps, c :: cs => p == c && isPrefixCL ps cs

/-- Split a char list on each occurrence of the non-empty separator
`sep` (fuelled structural recursion; the fuel is the input length plus
one, which the scan never exhausts). -/
def splitOnAuxCL (sep : List Char) : ℕ → List Char → List Char → List (List Char)
  | 0, s, acc => [acc.reverse ++ s]
  | fuel + 1, s, acc =>
      match s with
      | [] => [acc.reverse]
      | c :: cs =>
          if isPrefixCL sep s then
            acc.reverse :: splitOnAuxCL sep fuel (s.drop sep.length) []
          else
            splitOnAuxCL sep fuel cs (c :: acc)

/-- `strings.Split` / `String.splitOn`: split `s` on each occurrence of
`sep`; an empty separator yields `[s]`. -/
def splitOnStr (s sep : String) : List String :=
  if sep.data = [] then [s]
  else (splitOnAuxCL sep.data (s.data.length + 1) s.data []).map String.mk

/-- Does `s` contain `pat` as a substring (Go `strings.Contains`, for
non-empty `pat`)? -/
def containsSubstr (s pat : String) : Bool :=
  (splitOnStr s pat).length > 1

/-- ASCII lower-casing of one char (Go lower-cases URL schemes, which
are ASCII by validity). -/
def charToLower (c : Char) : Char :=
  if 65 ≤ c.toNat ∧ c.toNat ≤ 90 then Char.ofNat (c.toNat + 32) else c

/-- ASCII lower-casing of a string. -/
def toLowerStr (s : String) : String :=
  String.mk (s.data.map charToLower)

/-- The numeric value of a string of decimal digits (Go `strconv.Atoi`
on the digit-validated port strings `extractPort` feeds it). -/
def digitsToNat : List Char → ℕ → ℕ
  | [], acc => acc
  | c :: cs, acc => digitsToNat cs (acc * 10 + (c.toNat - 48))

/-- Go `net/url` scheme validity: a letter followed by letters, digits,
`+`, `-`, `.`. -/
def goValidScheme (s : String) : Bool :=
  match s.data with
  | [] => false
  | c :: rest =>
      c.isAlpha && rest.all (fun c => c.isAlpha || c.isDigit || c = '+' || c = '-' || c = '.')

/-- Split a `host:port` authority at its last colon; no colon yields an
empty port string. -/
def splitLastColon (s : String) : String × String :=
  match splitOnStr s ":" with
  | [] => (s, "")
  | [h] => (h, "")
  | parts => (String.intercalate ":" parts.dropLast, parts.getLastD "")

/-- The parse of a URL, restricted to the fields `extractPort` reads. -/
structure GoURL where
  scheme : String
  host : String
  port : String
deriving DecidableEq

/-- `url.Parse` restricted to `scheme://host[:port][/path...]` shapes
(no userinfo or bracketed IPv6 hosts, which the classifier never
receives): the scheme is validated and lowercased, the authority runs to
the first `/`, and a non-numeric port is a parse error. -/
def parseURL (s : String) : Option GoURL :=
  match splitOnStr s "://" with
  | [] => none
  | [_] => none
  | scheme :: rest =>
      if goValidScheme scheme then
        let afterScheme := String.intercalate "://" rest
        let authority := (splitOnStr afterScheme "/").headD afterScheme
        let hp := splitLastColon authority
        if hp.2.data.all Char.isDigit then
          some { scheme := toLowerStr scheme, host := hp.1, port := hp.2 }
        else none
      else none

/-- `extractPort`: prefix bare `host:port` with `http://`, parse, use the
explicit port when present, else the scheme default (80 for http, 443
for https), and `-1` on failure or unknown scheme. -/
def extractPort (endpoint : String) (_configuredPort : ℤ) : ℤ :=
  let e := if containsSubstr endpoint "://" then endpoint else "http://" ++ endpoint
  match parseURL e with
  | none => -1
  | some u =>
      if u.port ≠ "" then
        (digitsToNat u.port.data 0 : ℤ)
      else if u.scheme = "http" then 80
      else if u.scheme = "https" then 443
      else -1

/-- `connectedOrWaiting`. -/
def connectedOrWaiting (hasReceivedData : Bool) : StatusInfo :=
  if hasReceivedData then
    { status := .connected, icon := "✅", label := "Connected" }
  else
    { status := .waiting, icon := "✅", label := "Waiting..." }

/-- `ClassifyTelemetry`: received data wins; unreadable env is Unknown;
telemetry absent/empty/`"0"` is Off; no endpoint splits into
Console-only versus the default port 4317 comparison; an endpoint is
parsed and its port compared with the configured port. -/
def classifyTelemetry (proc : ProcessInfo) (configuredPort : ℤ)
    (hasReceivedData : Bool) : StatusInfo :=
  if hasReceivedData then
    { status := .connected, icon := "✅", label := "Connected" }
  else if !proc.envReadable then
    { status := .unknown, icon := "❓", label := "Unknown" }
  else
    match lookupAttr proc.envVars "CLAUDE_CODE_ENABLE_TELEMETRY" with
    | none => { status := .off, icon := "❌", label := "No telemetry" }
    | some telemetryVal =>
        if telemetryVal = "0" ∨ telemetryVal = "" then
          { status := .off, icon := "❌", label := "No telemetry" }
        else
          let endpointOpt := lookupAttr proc.envVars "OTEL_EXPORTER_OTLP_ENDPOINT"
          let metricsExporter := (lookupAttr proc.envVars "OTEL_METRICS_EXPORTER").getD ""
          let logsExporter := (lookupAttr proc.envVars "OTEL_LOGS_EXPORTER").getD ""
          if endpointOpt = none ∨ endpointOpt = some "" then
            if metricsExporter ≠ "otlp" ∧ logsExporter ≠ "otlp" then
              { status := .consoleOnly, icon := "⚠️", label := "Console only" }
            else if configuredPort = 4317 then
              connectedOrWaiting hasReceivedData
            else
              { status := .wrongPort, icon := "⚠️", label := "Wrong port" }
          else
            let endpoint := endpointOpt.getD ""
            if extractPort endpoint configuredPort = configuredPort then
              connectedOrWaiting hasReceivedData
            else
              { status := .wrongPort, icon := "⚠️", label := "Wrong port" }

/-! ## Concrete fixtures used by the claim theorems and witnesses -/

/-- The session `"sess-1"` holds after one cost sample of value 10
(used to witness the delta rule on a later sample). -/
def sess10 : SessionData :=
  addMetricSession (newSession (resolveSessionID "sess-1") 1) (costMetric 10) 1

/-- Concrete heap for the C3 evaluation: one attribute-map cell
`{model: opus}` (referenced by the stored metric) and one
previous-values cell. -/
def c3Heap : Heap :=
  { attrCells := [[("model", "opus")]]
    pvCells := [[("claude_code.cost.usage", 10)]] }

/-- The stored session: one cost metric whose attribute map is heap
cell 0, previous values in pv cell 0. -/
def c3Session : SessionR :=
  { sessionID := "sess-1"
    pid := 0
    startedAt := 1
    lastEventAt := 1
    exited := false
    model := "opus"
    terminal := ""
    cwd := ""
    totalCost := 10
    totalTokens := 0
    activeTime := 0
    metrics := [{ name := "claude_code.cost.usage", value := 10, attrRef := 0, timestamp := 1 }]
    events := []
    pvRef := 0 }

/-- The store holding the single session. -/
def c3Store : List (String × SessionR) := [("sess-1", c3Session)]

/-- The first `GetSession` read: the heap after the snapshot copy, and
the snapshot handed to the reader. -/
def c3Read1 : Heap × SessionR := copySession c3Heap c3Session

/-- The reader's mutation: write `model ↦ haiku` into the attribute map
of the snapshot's first metric, through the map reference that snapshot
holds. -/
def c3MutatedHeap : Heap :=
  writeAttrCell c3Read1.1
    ((c3Read1.2.metrics.headD { name := "", value := 0, attrRef := 0, timestamp := 0 }).attrRef)
    "model" "haiku"

/-- The second `GetSession` read, after the mutation. -/
def c3Read2 : Heap × SessionR := copySession c3MutatedHeap c3Session

/-- A metric named `m` (no aggregation) carrying timestamp `t`. -/
def tsMetric (t : ℤ) : Metric :=
  { name := "m", value := 1, attributes := [], timestamp := t }

/-- A session with `pid = 7` for the C5 witness. -/
def c5Session : SessionData :=
  { newSession "a" 0 with pid := 7 }

/-- The rational 3/2 (the IEEE double 1.5), as a raw normalized `Rat`. -/
def threeHalves : ℚ := ⟨3, 2, by decide, by decide⟩

/-- The engine state for the C8 witness: key `CostSurge|` fired at
time 0, window 60 s. -/
def c8Engine : EngineState :=
  { alerts := [], lastFired := [("CostSurge|", 0)], dedupTTL := 60 }

/-- A global CostSurge alert re-triggered at 30 s (inside the window). -/
def c8AlertEarly : Alert :=
  { rule := "CostSurge", severity := .critical, sessionID := "", message := "m", firedAt := 30 }

/-- A global CostSurge alert re-triggered at 60 s (window elapsed). -/
def c8AlertLate : Alert :=
  { rule := "CostSurge", severity := .critical, sessionID := "", message := "m", firedAt := 60 }

/-- The S4 scenario process: telemetry on, endpoint
`http://localhost:9090`. -/
def procS4 : ProcessInfo :=
  { pid := 77
    binaryName := "claude"
    envReadable := true
    envVars := [("CLAUDE_CODE_ENABLE_TELEMETRY", "1"),
                ("OTEL_EXPORTER_OTLP_ENDPOINT", "http://localhost:9090")] }

/-- The process for the C10 witness: telemetry on, endpoint
`grpc://localhost`. -/
def procGrpc : ProcessInfo :=
  { pid := 5
    binaryName := "claude"
    envReadable := true
    envVars := [("CLAUDE_CODE_ENABLE_TELEMETRY", "1"),
                ("OTEL_EXPORTER_OTLP_ENDPOINT", "grpc://localhost")] }

/-! ## Helper lemmas about the store model -/

theorem getPut_same (st : MemoryStore) (sid : String) (s : SessionData) :
    getSessionRaw (putSession st sid s) sid = some s := by
  induction st with
  | nil => simp [putSession, getSessionRaw]
  | cons kv rest ih =>
      obtain ⟨k, v⟩ := kv
      by_cases h : k = sid
      · simp [putSession, getSessionRaw, h]
      · simp [putSession, getSessionRaw, h, ih]

theorem getPut_other (st : MemoryStore) (sid k : String) (s : SessionData)
    (h : k ≠ sid) : getSessionRaw (putSession st sid s) k = getSessionRaw st k := by
  induction st with
  | nil => simp [putSession, getSessionRaw, Ne.symm h]
  | cons kv rest ih =>
      obtain ⟨k0, v0⟩ := kv
      by_cases h0 : k0 = sid
      · subst h0
        simp [putSession, getSessionRaw, Ne.symm h]
      · simp [putSession, getSessionRaw, h0, ih]

theorem lookup_setPV_same (pv : List (String × ℚ)) (k : String) (v : ℚ) :
    lookupPV (setPV pv k v) k = some v := by
  induction pv with
  | nil => simp [setPV, lookupPV]
  | cons p rest ih =>
      obtain ⟨k0, v0⟩ := p
      by_cases h : k0 = k
      · simp [setPV, lookupPV, h]
      · simp [setPV, lookupPV, h, ih]

theorem lookup_setPV_other (pv : List (String × ℚ)) (k k' : String) (v : ℚ)
    (h : k' ≠ k) : lookupPV (setPV pv k v) k' = lookupPV pv k' := by
  induction pv with
  | nil => simp [setPV, lookupPV, Ne.symm h]
  | cons p rest ih =>
      obtain ⟨k0, v0⟩ := p
      by_cases h0 : k0 = k
      · subst h0
        simp [setPV, lookupPV, Ne.symm h]
      · simp [setPV, lookupPV, h0, ih]

theorem updateModelFromAttrs_totalCost (s : SessionData) (a : AttrMap) :
    (updateModelFromAttrs s a).totalCost = s.totalCost := by
  unfold updateModelFromAttrs
  split
  · split <;> rfl
  · rfl

theorem updateModelFromAttrs_totalTokens (s : SessionData) (a : AttrMap) :
    (updateModelFromAttrs s a).totalTokens = s.totalTokens := by
  unfold updateModelFromAttrs
  split
  · split <;> rfl
  · rfl

theorem updateModelFromAttrs_previousValues (s : SessionData) (a : AttrMap) :
    (updateModelFromAttrs s a).previousValues = s.previousValues := by
  unfold updateModelFromAttrs
  split
  · split <;> rfl
  · rfl

theorem updateModelFromAttrs_lastEventAt (s : SessionData) (a : AttrMap) :
    (updateModelFromAttrs s a).lastEventAt = s.lastEventAt := by
  unfold updateModelFromAttrs
  split
  · split <;> rfl
  · rfl

theorem updateTerminalFromAttrs_totalCost (s : SessionData) (a : AttrMap) :
    (updateTerminalFromAttrs s a).totalCost = s.totalCost := by
  unfold updateTerminalFromAttrs
  split
  · split <;> rfl
  · rfl

theorem updateTerminalFromAttrs_totalTokens (s : SessionData) (a : AttrMap) :
    (updateTerminalFromAttrs s a).totalTokens = s.totalTokens := by
  unfold updateTerminalFromAttrs
  split
  · split <;> rfl
  · rfl

theorem updateTerminalFromAttrs_previousValues (s : SessionData) (a : AttrMap) :
    (updateTerminalFromAttrs s a).previousValues = s.previousValues := by
  unfold updateTerminalFromAttrs
  split
  · split <;> rfl
  · rfl

theorem updateTerminalFromAttrs_lastEventAt (s : SessionData) (a : AttrMap) :
    (updateTerminalFromAttrs s a).lastEventAt = s.lastEventAt := by
  unfold updateTerminalFromAttrs
  split
  · split <;> rfl
  · rfl

theorem applyMetricAggregate_totalCost (s : SessionData) (name : String) (delta : ℚ) :
    (applyMetricAggregate s name delta).totalCost =
      if name = "claude_code.cost.usage" then s.totalCost + delta else s.totalCost := by
  unfold applyMetricAggregate
  by_cases h1 : name = "claude_code.cost.usage"
  · simp [h1]
  · rw [if_neg h1, if_neg h1]
    by_cases h2 : name = "claude_code.token.usage"
    · simp [h2]
    · rw [if_neg h2]
      by_cases h3 : name = "claude_code.active_time.total"
      · simp [h3]
      · rw [if_neg h3]

theorem applyMetricAggregate_totalTokens (s : SessionData) (name : String) (delta : ℚ) :
    (applyMetricAggregate s name delta).totalTokens =
      if name = "claude_code.token.usage" then s.totalTokens + goTrunc delta
      else s.totalTokens := by
  unfold applyMetricAggregate
  by_cases h1 : name = "claude_code.cost.usage"
  · subst h1
    rw [if_pos rfl, if_neg (by decide)]
  · rw [if_neg h1]
    by_cases h2 : name = "claude_code.token.usage"
    · simp [h2]
    · rw [if_neg h2, if_neg h2]
      by_cases h3 : name = "claude_code.active_time.total"
      · simp [h3]
      · rw [if_neg h3]

theorem applyMetricAggregate_previousValues (s : SessionData) (name : String) (delta : ℚ) :
    (applyMetricAggregate s name delta).previousValues = s.previousValues := by
  unfold applyMetricAggregate
  split
  · rfl
  · split
    · rfl
    · split <;> rfl

theorem applyMetricAggregate_lastEventAt (s : SessionData) (name : String) (delta : ℚ) :
    (applyMetricAggregate s name delta).lastEventAt = s.lastEventAt := by
  unfold applyMetricAggregate
  split
  · rfl
  · split
    · rfl
    · split <;> rfl

/-- The per-session body of `AddMetric` in applicative normal form. -/
theorem addMetricSession_eq (s : SessionData) (m : Metric) (now : ℤ) :
    addMetricSession s m now =
      updateTerminalFromAttrs
        (updateModelFromAttrs
          (applyMetricAggregate
            { s with
                metrics := s.metrics ++ [m]
                lastEventAt := if m.timestamp ≠ 0 then m.timestamp else now
                previousValues := setPV s.previousValues (metricKey m.name m.attributes) m.value }
            m.name
            (match lookupPV s.previousValues (metricKey m.name m.attributes) with
              | none => m.value
              | some prev => if m.value - prev < 0 then m.value else m.value - prev))
          m.attributes)
        m.attributes := rfl

/-- `addMetricSession` projected on `totalCost`. -/
theorem addMetricSession_totalCost (s : SessionData) (m : Metric) (now : ℤ) :
    (addMetricSession s m now).totalCost =
      if m.name = "claude_code.cost.usage" then
        s.totalCost +
          (match lookupPV s.previousValues (metricKey m.name m.attributes) with
            | none => m.value
            | some prev => if m.value - prev < 0 then m.value else m.value - prev)
      else s.totalCost := by
  rw [addMetricSession_eq, updateTerminalFromAttrs_totalCost,
    updateModelFromAttrs_totalCost, applyMetricAggregate_totalCost]

/-- `addMetricSession` projected on `totalTokens`. -/
theorem addMetricSession_totalTokens (s : SessionData) (m : Metric) (now : ℤ) :
    (addMetricSession s m now).totalTokens =
      if m.name = "claude_code.token.usage" then
        s.totalTokens +
          goTrunc
            (match lookupPV s.previousValues (metricKey m.name m.attributes) with
              | none => m.value
              | some prev => if m.value - prev < 0 then m.value else m.value - prev)
      else s.totalTokens := by
  rw [addMetricSession_eq, updateTerminalFromAttrs_totalTokens,
    updateModelFromAttrs_totalTokens, applyMetricAggregate_totalTokens]

/-- `addMetricSession` projected on `previousValues`. -/
theorem addMetricSession_previousValues (s : SessionData) (m : Metric) (now : ℤ) :
    (addMetricSession s m now).previousValues =
      setPV s.previousValues (metricKey m.name m.attributes) m.value := by
  rw [addMetricSession_eq, updateTerminalFromAttrs_previousValues,
    updateModelFromAttrs_previousValues, applyMetricAggregate_previousValues]

/-- `addMetricSession` projected on `lastEventAt`. -/
theorem addMetricSession_lastEventAt (s : SessionData) (m : Metric) (now : ℤ) :
    (addMetricSession s m now).lastEventAt =
      if m.timestamp ≠ 0 then m.timestamp else now := by
  rw [addMetricSession_eq, updateTerminalFromAttrs_lastEventAt,
    updateModelFromAttrs_lastEventAt, applyMetricAggregate_lastEventAt]

/-- Reading back the bucket `AddMetric` wrote. -/
theorem getSessionRaw_addMetric (sid : String) (m : Metric) (now : ℤ) (st : MemoryStore) :
    getSessionRaw (addMetric sid m now st) (resolveSessionID sid) =
      some (addMetricSession
        ((getSessionRaw st (resolveSessionID sid)).getD
          (newSession (resolveSessionID sid) now)) m now) := by
  unfold addMetric
  exact getPut_same _ _ _

/-- Reading back the bucket `AddEvent` wrote. -/
theorem getSessionRaw_addEvent (sid : String) (e : Event) (now : ℤ) (st : MemoryStore) :
    getSessionRaw (addEvent sid e now st) (resolveSessionID sid) =
      some (addEventSession
        ((getSessionRaw st (resolveSessionID sid)).getD
          (newSession (resolveSessionID sid) now)) e now) := by
  unfold addEvent
  exact getPut_same _ _ _

/-- One `writeCosts` step. -/
theorem writeCosts_cons (st : MemoryStore) (v : ℚ) (vs : List ℚ) :
    writeCosts st (v :: vs) = writeCosts (addMetric "sess-1" (costMetric v) 1 st) vs := rfl

/-- Invariant for a run of cost writes on an existing `"sess-1"` bucket:
the bucket stays present, `totalCost` grows by the sum of code deltas,
and `previous_values` holds the last raw value written. -/
theorem writeCosts_invariant (vs : List ℚ) :
    ∀ (st : MemoryStore) (s : SessionData) (prev : ℚ),
      getSessionRaw st "sess-1" = some s →
      lookupPV s.previousValues "claude_code.cost.usage" = some prev →
      ∃ s', getSessionRaw (writeCosts st vs) "sess-1" = some s' ∧
        s'.totalCost = s.totalCost + sumDeltas prev vs ∧
        lookupPV s'.previousValues "claude_code.cost.usage" = some (lastD prev vs) := by
  induction vs with
  | nil =>
      intro st s prev hs hpv
      exact ⟨s, hs, by simp [writeCosts, sumDeltas], by simpa [lastD] using hpv⟩
  | cons v vs ih =>
      intro st s prev hs hpv
      have hres : resolveSessionID "sess-1" = "sess-1" := by decide
      have hkey : metricKey (costMetric v).name (costMetric v).attributes
          = "claude_code.cost.usage" := by simp [costMetric, metricKey]
      have hstep : getSessionRaw (addMetric "sess-1" (costMetric v) 1 st) "sess-1"
          = some (addMetricSession s (costMetric v) 1) := by
        have h := getSessionRaw_addMetric "sess-1" (costMetric v) 1 st
        rw [hres, hs] at h
        simpa using h
      have hcost : (addMetricSession s (costMetric v) 1).totalCost
          = s.totalCost + deltaFrom prev v := by
        rw [addMetricSession_totalCost, hkey, hpv]
        simp [costMetric, deltaFrom]
      have hpv' : lookupPV (addMetricSession s (costMetric v) 1).previousValues
          "claude_code.cost.usage" = some v := by
        rw [addMetricSession_previousValues, hkey]
        exact lookup_setPV_same _ _ _
      rw [writeCosts_cons]
      obtain ⟨s', h1, h2, h3⟩ := ih _ _ v hstep hpv'
      refine ⟨s', h1, ?_, ?_⟩
      · rw [h2, hcost, sumDeltas]
        ring
      · simpa [lastD] using h3

/-- One `writeTokens` step. -/
theorem writeTokens_cons (st : MemoryStore) (v : ℚ) (vs : List ℚ) :
    writeTokens st (v :: vs) = writeTokens (addMetric "sess-1" (tokenMetric v []) 1 st) vs := rfl

/-- Invariant for a run of token writes on an existing `"sess-1"` bucket. -/
theorem writeTokens_invariant (vs : List ℚ) :
    ∀ (st : MemoryStore) (s : SessionData) (prev : ℚ),
      getSessionRaw st "sess-1" = some s →
      lookupPV s.previousValues "claude_code.token.usage" = some prev →
      ∃ s', getSessionRaw (writeTokens st vs) "sess-1" = some s' ∧
        s'.totalTokens = s.totalTokens + sumTokenDeltas prev vs ∧
        lookupPV s'.previousValues "claude_code.token.usage" = some (lastD prev vs) := by
  induction vs with
  | nil =>
      intro st s prev hs hpv
      exact ⟨s, hs, by simp [writeTokens, sumTokenDeltas], by simpa [lastD] using hpv⟩
  | cons v vs ih =>
      intro st s prev hs hpv
      have hres : resolveSessionID "sess-1" = "sess-1" := by decide
      have hkey : metricKey (tokenMetric v []).name (tokenMetric v []).attributes
          = "claude_code.token.usage" := by simp [tokenMetric, metricKey]
      have hstep : getSessionRaw (addMetric "sess-1" (tokenMetric v []) 1 st) "sess-1"
          = some (addMetricSession s (tokenMetric v []) 1) := by
        have h := getSessionRaw_addMetric "sess-1" (tokenMetric v []) 1 st
        rw [hres, hs] at h
        simpa using h
      have htok : (addMetricSession s (tokenMetric v []) 1).totalTokens
          = s.totalTokens + goTrunc (deltaFrom prev v) := by
        rw [addMetricSession_totalTokens, hkey, hpv]
        simp [tokenMetric, deltaFrom]
      have hpv' : lookupPV (addMetricSession s (tokenMetric v []) 1).previousValues
          "claude_code.token.usage" = some v := by
        rw [addMetricSession_previousValues, hkey]
        exact lookup_setPV_same _ _ _
      rw [writeTokens_cons]
      obtain ⟨s', h1, h2, h3⟩ := ih _ _ v hstep hpv'
      refine ⟨s', h1, ?_, ?_⟩
      · rw [h2, htok, sumTokenDeltas]
        ring
      · simpa [lastD] using h3

/-! ## Claim theorems -/

/-- C1: for cost samples written through `AddMetric` under one counter
key, the delta added to `total_cost` is `value - prev` when a previous
value exists and `value ≥ prev`, `value` when `value < prev` (counter
reset), and `value` on the first sample; the scenario 10, 15, 3 yields
`total_cost = 18`. -/
theorem C1_cost_delta_rule :
    (∀ (st : MemoryStore) (sid : String) (s : SessionData) (m : Metric) (now : ℤ),
      getSessionRaw st (resolveSessionID sid) = some s →
      m.name = "claude_code.cost.usage" →
      ((getSessionRaw (addMetric sid m now st) (resolveSessionID sid)).map
          SessionData.totalCost)
        = some (s.totalCost +
            match lookupPV s.previousValues (metricKey m.name m.attributes) with
            | none => m.value
            | some prev => if m.value < prev then m.value else m.value - prev))
  ∧ (∀ (st : MemoryStore) (sid : String) (m : Metric) (now : ℤ),
      getSessionRaw st (resolveSessionID sid) = none →
      m.name = "claude_code.cost.usage" →
      ((getSessionRaw (addMetric sid m now st) (resolveSessionID sid)).map
          SessionData.totalCost)
        = some m.value)
  ∧ ((getSessionRaw (writeCosts emptyStore [10, 15, 3]) "sess-1").map
        SessionData.totalCost = some 18) := by
  refine ⟨?_, ?_, ?_⟩
  · intro st sid s m now hs hname
    rw [getSessionRaw_addMetric, hs]
    simp only [Option.getD_some, Option.map_some']
    rw [addMetricSession_totalCost, if_pos hname]
    congr 1
    cases hpv : lookupPV s.previousValues (metricKey m.name m.attributes) with
    | none => rfl
    | some prev => simp [sub_neg]
  · intro st sid m now hs hname
    rw [getSessionRaw_addMetric, hs]
    simp only [Option.getD_none, Option.map_some']
    rw [addMetricSession_totalCost, if_pos hname]
    simp [newSession, lookupPV]
  · norm_num +decide [writeCosts, addMetric, addMetricSession, costMetric,
      resolveSessionID, UnknownSessionID, newSession, getSessionRaw, putSession,
      lookupPV, setPV, metricKey, applyMetricAggregate, updateModelFromAttrs,
      updateTerminalFromAttrs, lookupAttr, emptyStore, goTrunc]

/-- Witness for C1 at concrete inputs: a second cost sample of 15 after
a first sample of 10, and a first sample on an empty store. -/
theorem C1_cost_delta_rule_witness :
    (((getSessionRaw (addMetric "sess-1" (costMetric 15) 1
          (addMetric "sess-1" (costMetric 10) 1 emptyStore))
        (resolveSessionID "sess-1")).map SessionData.totalCost)
      = some (sess10.totalCost +
          match lookupPV sess10.previousValues
              (metricKey (costMetric 15).name (costMetric 15).attributes) with
          | none => (costMetric 15).value
          | some prev => if (costMetric 15).value < prev then (costMetric 15).value
              else (costMetric 15).value - prev))
  ∧ (((getSessionRaw (addMetric "sess-9" (costMetric 7) 1 emptyStore)
        (resolveSessionID "sess-9")).map SessionData.totalCost)
      = some (costMetric 7).value) := by
  constructor
  · apply C1_cost_delta_rule.1
    · have h := getSessionRaw_addMetric "sess-1" (costMetric 10) 1 emptyStore
      rw [show (getSessionRaw emptyStore (resolveSessionID "sess-1")).getD
            (newSession (resolveSessionID "sess-1") 1)
          = newSession (resolveSessionID "sess-1") 1 from rfl] at h
      exact h
    · rfl
  · apply C1_cost_delta_rule.2.1
    · rfl
    · rfl

/-- C2 counterexample: on the sequence 10, 15 the code computes
`total_cost = 15`, while the spec formula `v₀ + Σ max(vᵢ − vᵢ₋₁, vᵢ)`
gives 25. -/
theorem C2_spec_formula_counterexample :
    ((getSessionRaw (writeCosts emptyStore [10, 15]) "sess-1").map
        SessionData.totalCost = some 15)
  ∧ specCounterTotal [10, 15] = 25
  ∧ (15 : ℚ) ≠ 25 := by
  refine ⟨?_, ?_, by norm_num⟩
  · norm_num +decide [writeCosts, addMetric, addMetricSession, costMetric,
      resolveSessionID, UnknownSessionID, newSession, getSessionRaw, putSession,
      lookupPV, setPV, metricKey, applyMetricAggregate, updateModelFromAttrs,
      updateTerminalFromAttrs, lookupAttr, emptyStore, goTrunc]
  · norm_num [specCounterTotal, specMaxTail]

/-- C2 as amended: for every non-empty cumulative-counter sequence
`v₀, …, vₙ` under one counter key, `total_cost` equals
`v₀ + Σᵢ≥1 δᵢ` with `δᵢ = vᵢ − vᵢ₋₁` when `vᵢ ≥ vᵢ₋₁` and `δᵢ = vᵢ`
otherwise, and `total_tokens` accumulates the truncation toward zero of
each such delta. -/
theorem C2_counter_reset_law_amended (v : ℚ) (vs : List ℚ) :
    ((getSessionRaw (writeCosts emptyStore (v :: vs)) "sess-1").map
        SessionData.totalCost = some (codeCounterTotal (v :: vs)))
  ∧ ((getSessionRaw (writeTokens emptyStore (v :: vs)) "sess-1").map
        SessionData.totalTokens = some (codeTokenTotal (v :: vs))) := by
  constructor
  · rw [writeCosts_cons]
    have hres : resolveSessionID "sess-1" = "sess-1" := by decide
    have h0 : getSessionRaw (addMetric "sess-1" (costMetric v) 1 emptyStore) "sess-1"
        = some (addMetricSession (newSession "sess-1" 1) (costMetric v) 1) := by
      have h := getSessionRaw_addMetric "sess-1" (costMetric v) 1 emptyStore
      rw [hres] at h
      simpa [emptyStore, getSessionRaw] using h
    have hkey : metricKey (costMetric v).name (costMetric v).attributes
        = "claude_code.cost.usage" := by simp [costMetric, metricKey]
    have hcost : (addMetricSession (newSession "sess-1" 1)
        (costMetric v) 1).totalCost = v := by
      rw [addMetricSession_totalCost, hkey]
      simp [newSession, lookupPV, costMetric]
    have hpv : lookupPV (addMetricSession (newSession "sess-1" 1)
        (costMetric v) 1).previousValues "claude_code.cost.usage" = some v := by
      rw [addMetricSession_previousValues, hkey]
      exact lookup_setPV_same _ _ _
    obtain ⟨s', h1, h2, _⟩ := writeCosts_invariant vs _ _ v h0 hpv
    rw [h1]
    simp only [Option.map_some']
    rw [h2, hcost]
    rfl
  · rw [writeTokens_cons]
    have hres : resolveSessionID "sess-1" = "sess-1" := by decide
    have h0 : getSessionRaw (addMetric "sess-1" (tokenMetric v []) 1 emptyStore) "sess-1"
        = some (addMetricSession (newSession "sess-1" 1) (tokenMetric v []) 1) := by
      have h := getSessionRaw_addMetric "sess-1" (tokenMetric v []) 1 emptyStore
      rw [hres] at h
      simpa [emptyStore, getSessionRaw] using h
    have hkey : metricKey (tokenMetric v []).name (tokenMetric v []).attributes
        = "claude_code.token.usage" := by simp [tokenMetric, metricKey]
    have htok : (addMetricSession (newSession "sess-1" 1)
        (tokenMetric v []) 1).totalTokens = goTrunc v := by
      rw [addMetricSession_totalTokens, hkey]
      simp [newSession, lookupPV, tokenMetric]
    have hpv : lookupPV (addMetricSession (newSession "sess-1" 1)
        (tokenMetric v []) 1).previousValues "claude_code.token.usage" = some v := by
      rw [addMetricSession_previousValues, hkey]
      exact lookup_setPV_same _ _ _
    obtain ⟨s', h1, h2, _⟩ := writeTokens_invariant vs _ _ v h0 hpv
    rw [h1]
    simp only [Option.map_some']
    rw [h2, htok]
    rfl

/-- `addEventSession` projected on `lastEventAt`. -/
theorem addEventSession_lastEventAt (s : SessionData) (e : Event) (now : ℤ) :
    (addEventSession s e now).lastEventAt =
      if e.timestamp ≠ 0 then e.timestamp else now := by
  cases hm : lookupAttr e.attributes "model" with
  | none =>
      simp only [addEventSession, hm]
      split_ifs <;> rfl
  | some v =>
      simp only [addEventSession, hm]
      split_ifs <;> rfl

/-- C3: evaluating `GetSession`/`copySession` at the failing input.  The
snapshot returned to the reader shares the attribute-map cell of its
metric with the store (`attrRef = 0`); after the reader mutates that map
through the snapshot, a subsequent `GetSession` read observes
`model = haiku` instead of `model = opus`, so the snapshot is not fully
independent of the store — contradicting the claim and `copySession`'s
own documentation ("deep copy ... to prevent callers from mutating
internal state"). -/
theorem C3_snapshot_aliasing_bug :
    (getSessionRefModel c3Heap c3Store "sess-1" = some c3Read1)
  ∧ (c3Read1.2.metrics.map MetricR.attrRef = [0])
  ∧ ((resolveSession c3Read1.1 c3Read1.2).metrics.map Metric.attributes
      = [[("model", "opus")]])
  ∧ (getSessionRefModel c3MutatedHeap c3Store "sess-1" = some c3Read2)
  ∧ ((resolveSession c3Read2.1 c3Read2.2).metrics.map Metric.attributes
      = [[("model", "haiku")]])
  ∧ resolveSession c3Read2.1 c3Read2.2 ≠ resolveSession c3Read1.1 c3Read1.2 := by
  decide

/-- C4 counterexample: a second `AddMetric` carrying the older non-zero
timestamp 50 moves `last_event_at` backwards from 100 to 50. -/
theorem C4_last_event_at_counterexample :
    ((getSessionRaw (addMetric "sess-1" (tsMetric 100) 0 emptyStore) "sess-1").map
        SessionData.lastEventAt = some 100)
  ∧ ((getSessionRaw (addMetric "sess-1" (tsMetric 50) 0
        (addMetric "sess-1" (tsMetric 100) 0 emptyStore)) "sess-1").map
        SessionData.lastEventAt = some 50)
  ∧ (50 : ℤ) < 100 := by
  decide

/-- C4 as amended: after each `add_metric`/`add_event`, `last_event_at`
equals the carried timestamp when it is non-zero and the current wall
time otherwise; so it is non-decreasing exactly across writes whose
non-zero timestamps arrive in non-decreasing order, and a write carrying
an older non-zero timestamp moves it backwards. -/
theorem C4_last_event_at_amended (st : MemoryStore) (sid : String) (m : Metric)
    (e : Event) (now : ℤ) :
    (m.timestamp ≠ 0 →
      ((getSessionRaw (addMetric sid m now st) (resolveSessionID sid)).map
        SessionData.lastEventAt) = some m.timestamp)
  ∧ (m.timestamp = 0 →
      ((getSessionRaw (addMetric sid m now st) (resolveSessionID sid)).map
        SessionData.lastEventAt) = some now)
  ∧ (e.timestamp ≠ 0 →
      ((getSessionRaw (addEvent sid e now st) (resolveSessionID sid)).map
        SessionData.lastEventAt) = some e.timestamp)
  ∧ (e.timestamp = 0 →
      ((getSessionRaw (addEvent sid e now st) (resolveSessionID sid)).map
        SessionData.lastEventAt) = some now) := by
  refine ⟨?_, ?_, ?_, ?_⟩
  · intro h
    rw [getSessionRaw_addMetric]
    simp [addMetricSession_lastEventAt, h]
  · intro h
    rw [getSessionRaw_addMetric]
    simp [addMetricSession_lastEventAt, h]
  · intro h
    rw [getSessionRaw_addEvent]
    simp [addEventSession_lastEventAt, h]
  · intro h
    rw [getSessionRaw_addEvent]
    simp [addEventSession_lastEventAt, h]

/-- Witness for the amended C4 at concrete inputs: writes with non-zero
timestamps 7 and 9 land as `last_event_at`, writes with zero timestamps
fall back to the wall clock 3. -/
theorem C4_last_event_at_amended_witness :
    (((getSessionRaw (addMetric "w" (tsMetric 7) 3 emptyStore) (resolveSessionID "w")).map
        SessionData.lastEventAt) = some (tsMetric 7).timestamp)
  ∧ (((getSessionRaw (addMetric "w" (tsMetric 0) 3 emptyStore) (resolveSessionID "w")).map
        SessionData.lastEventAt) = some 3)
  ∧ (((getSessionRaw (addEvent "w" { name := "ev", attributes := [], timestamp := 9 } 3
        emptyStore) (resolveSessionID "w")).map
        SessionData.lastEventAt)
      = some ({ name := "ev", attributes := [], timestamp := 9 } : Event).timestamp)
  ∧ (((getSessionRaw (addEvent "w" { name := "ev", attributes := [], timestamp := 0 } 3
        emptyStore) (resolveSessionID "w")).map
        SessionData.lastEventAt) = some 3) :=
  ⟨(C4_last_event_at_amended emptyStore "w" (tsMetric 7)
      { name := "ev", attributes := [], timestamp := 9 } 3).1 (by decide),
   (C4_last_event_at_amended emptyStore "w" (tsMetric 0)
      { name := "ev", attributes := [], timestamp := 9 } 3).2.1 rfl,
   (C4_last_event_at_amended emptyStore "w" (tsMetric 7)
      { name := "ev", attributes := [], timestamp := 9 } 3).2.2.1 (by decide),
   (C4_last_event_at_amended emptyStore "w" (tsMetric 7)
      { name := "ev", attributes := [], timestamp := 0 } 3).2.2.2 rfl⟩

/-- Reading back after `MarkExited` with a non-zero pid: the bucket is
transformed pointwise, flipping `exited` exactly when the pid matches. -/
theorem getSessionRaw_markExited (p : ℤ) (hp : p ≠ 0) (st : MemoryStore) (sid : String) :
    getSessionRaw (markExited p st) sid =
      (getSessionRaw st sid).map
        (fun s => if s.pid = p then { s with exited := true } else s) := by
  unfold markExited
  rw [if_neg hp]
  induction st with
  | nil => rfl
  | cons kv rest ih =>
      obtain ⟨k, v⟩ := kv
      by_cases hk : k = sid
      · simp [markExitedList, getSessionRaw, hk]
      · simp [markExitedList, getSessionRaw, hk, ih]

/-- C5: `mark_exited(0)` is a no-op leaving every session unchanged (in
particular a session created by `AddMetric` alone still has
`exited = false` after `MarkExited(0)`); for `p ≠ 0`, `mark_exited(p)`
sets `exited = true` exactly on sessions with `pid = p`, leaving every
other field — in particular `total_cost` — unchanged. -/
theorem C5_mark_exited (st : MemoryStore) (p : ℤ) (sid : String) (s : SessionData) :
    (markExited 0 st = st)
  ∧ (p ≠ 0 → getSessionRaw st sid = some s →
      getSessionRaw (markExited p st) sid =
        some (if s.pid = p then { s with exited := true } else s))
  ∧ (p ≠ 0 → getSessionRaw st sid = some s →
      ((getSessionRaw (markExited p st) sid).map SessionData.totalCost)
        = some s.totalCost)
  ∧ (((getSessionRaw (markExited 0 (addMetric "sess-X" (costMetric 10) 5 emptyStore))
        "sess-X").map SessionData.exited) = some false) := by
  refine ⟨?_, ?_, ?_, ?_⟩
  · unfold markExited
    rw [if_pos rfl]
  · intro hp hs
    rw [getSessionRaw_markExited p hp, hs]
    rfl
  · intro hp hs
    rw [getSessionRaw_markExited p hp, hs]
    by_cases hv : s.pid = p <;> simp [hv]
  · decide

/-- Witness for C5 at concrete inputs: marking pid 7 exits the matching
session and leaves its `total_cost` unchanged. -/
theorem C5_mark_exited_witness :
    (getSessionRaw (markExited 7 (putSession emptyStore "a" c5Session)) "a"
      = some (if c5Session.pid = 7 then { c5Session with exited := true } else c5Session))
  ∧ (((getSessionRaw (markExited 7 (putSession emptyStore "a" c5Session)) "a").map
        SessionData.totalCost) = some c5Session.totalCost) :=
  ⟨(C5_mark_exited (putSession emptyStore "a" c5Session) 7 "a" c5Session).2.1
      (by decide) (by decide),
   (C5_mark_exited (putSession emptyStore "a" c5Session) 7 "a" c5Session).2.2.1
      (by decide) (by decide)⟩

/-- C6: counter keys separate metrics by name *and* serialized
attribute map (attribute keys sorted), writes under one counter key
leave the tracked previous value of every other key unchanged, and the
two-key token scenario 0→100 (`type=input`) and 0→50 (`type=output`)
yields `total_tokens = 150`. -/
theorem C6_counter_key_isolation (st : MemoryStore) (sid : String) (s : SessionData)
    (m : Metric) (now : ℤ) (k : String) :
    (metricKey "claude_code.token.usage" [("type", "input")]
       ≠ metricKey "claude_code.token.usage" [("type", "output")])
  ∧ (metricKey "claude_code.token.usage" [("type", "input")]
       = "claude_code.token.usage|type=input")
  ∧ (getSessionRaw st (resolveSessionID sid) = some s →
      k ≠ metricKey m.name m.attributes →
      ((getSessionRaw (addMetric sid m now st) (resolveSessionID sid)).map
        (fun s' => lookupPV s'.previousValues k)) = some (lookupPV s.previousValues k))
  ∧ (((getSessionRaw (addMetric "sess-1" (tokenMetric 50 [("type", "output")]) 1
        (addMetric "sess-1" (tokenMetric 0 [("type", "output")]) 1
          (addMetric "sess-1" (tokenMetric 100 [("type", "input")]) 1
            (addMetric "sess-1" (tokenMetric 0 [("type", "input")]) 1 emptyStore))))
        "sess-1").map SessionData.totalTokens) = some 150) := by
  refine ⟨by decide, by decide, ?_, ?_⟩
  · intro hs hk
    rw [getSessionRaw_addMetric, hs]
    simp only [Option.getD_some, Option.map_some']
    rw [addMetricSession_previousValues, lookup_setPV_other _ _ _ _ hk]
  · norm_num +decide [addMetric, addMetricSession, tokenMetric, resolveSessionID,
      UnknownSessionID, newSession, getSessionRaw, putSession, lookupPV, setPV,
      metricKey, applyMetricAggregate, updateModelFromAttrs, updateTerminalFromAttrs,
      lookupAttr, emptyStore, goTrunc, sortStrings, insertSorted, leString, leCharList]

/-- Witness for C6 at concrete inputs: a token write does not disturb
the previous value tracked for the cost counter key. -/
theorem C6_counter_key_isolation_witness :
    ((getSessionRaw (addMetric "sess-1" (tokenMetric 5 []) 2
        (addMetric "sess-1" (costMetric 10) 1 emptyStore)) (resolveSessionID "sess-1")).map
      (fun s' => lookupPV s'.previousValues "claude_code.cost.usage"))
    = some (lookupPV sess10.previousValues "claude_code.cost.usage") := by
  apply (C6_counter_key_isolation (addMetric "sess-1" (costMetric 10) 1 emptyStore)
    "sess-1" sess10 (tokenMetric 5 []) 2 "claude_code.cost.usage").2.2.1
  · have h := getSessionRaw_addMetric "sess-1" (costMetric 10) 1 emptyStore
    rw [show (getSessionRaw emptyStore (resolveSessionID "sess-1")).getD
          (newSession (resolveSessionID "sess-1") 1)
        = newSession (resolveSessionID "sess-1") 1 from rfl] at h
    exact h
  · decide

/-- C7: the receiver takes `session.id` from the resource attributes
when present (first match), otherwise from the per-datapoint /
per-log-record attributes (so the two carriers land in the same
bucket); when absent in both, the store re-keys to the sentinel
`"unknown"`; string, int, double, and bool attribute values are each
stringified. -/
theorem C7_session_id_extraction :
    (∀ (r : Resource) (attrs : List KeyValue) (kv : KeyValue),
      findSessionKV r.attributes = some kv →
      extractSessionID (some r) attrs = anyValueToString kv.value)
  ∧ (∀ (r : Resource) (attrs : List KeyValue),
      findSessionKV r.attributes = none →
      extractSessionID (some r) attrs = extractSessionID none attrs)
  ∧ (∀ (attrs : List KeyValue) (kv : KeyValue),
      findSessionKV attrs = some kv →
      extractSessionID none attrs = anyValueToString kv.value)
  ∧ (∀ (r : Resource) (attrs : List KeyValue),
      findSessionKV r.attributes = none → findSessionKV attrs = none →
      resolveSessionID (extractSessionID (some r) attrs) = UnknownSessionID)
  ∧ (∀ s, anyValueToString (.stringValue s) = s)
  ∧ (∀ i, anyValueToString (.intValue i) = toString i)
  ∧ (∀ b, anyValueToString (.boolValue b) = if b then "true" else "false")
  ∧ (threeHalves = 3 / 2 ∧ anyValueToString (.doubleValue threeHalves) = "1.5") := by
  refine ⟨?_, ?_, ?_, ?_, fun s => rfl, fun i => rfl, fun b => rfl, ?_, by decide⟩
  · intro r attrs kv h
    simp [extractSessionID, h]
  · intro r attrs h
    simp [extractSessionID, h]
  · intro attrs kv h
    simp [extractSessionID, h]
  · intro r attrs h1 h2
    simp [extractSessionID, h1, h2, resolveSessionID, UnknownSessionID]
  · rw [threeHalves, Rat.mk'_eq_divInt, Rat.divInt_eq_div]
    norm_num

/-- Witness for C7 at concrete inputs: the id is read from resource
attributes when present there, from record attributes when not, and the
empty extraction re-keys to `"unknown"`. -/
theorem C7_session_id_extraction_witness :
    (extractSessionID (some { attributes := [{ key := "session.id", value := .stringValue "abc" }] })
        [{ key := "session.id", value := .stringValue "zzz" }]
      = anyValueToString (.stringValue "abc"))
  ∧ (extractSessionID none [{ key := "session.id", value := .intValue 7 }]
      = anyValueToString (.intValue 7))
  ∧ (resolveSessionID (extractSessionID
        (some { attributes := [{ key := "other", value := .boolValue true }] }) [])
      = UnknownSessionID) :=
  ⟨C7_session_id_extraction.1
      { attributes := [{ key := "session.id", value := .stringValue "abc" }] }
      [{ key := "session.id", value := .stringValue "zzz" }]
      { key := "session.id", value := .stringValue "abc" } (by decide),
   C7_session_id_extraction.2.2.1
      [{ key := "session.id", value := .intValue 7 }]
      { key := "session.id", value := .intValue 7 } (by decide),
   C7_session_id_extraction.2.2.2.1
      { attributes := [{ key := "other", value := .boolValue true }] } []
      (by decide) (by decide)⟩

/-- C8: with the `lastFired` index holding the alert's key, a triggered
alert whose `FiredAt` is strictly less than the dedup window (default
60 s) after the recorded fire time is suppressed — neither appended to
the active list nor dispatched — while one at or past the window is
appended and dispatched. -/
theorem C8_dedup_window (e : EngineState) (a : Alert) (t : ℤ) :
    defaultDedupTTL = 60
  ∧ (lookupFired e.lastFired a.alertKey = some t → a.firedAt - t < e.dedupTTL →
      evaluateEngine e [a] = (e, []))
  ∧ (lookupFired e.lastFired a.alertKey = some t → e.dedupTTL ≤ a.firedAt - t →
      (evaluateEngine e [a]).1.alerts = e.alerts ++ [a]
      ∧ (evaluateEngine e [a]).2 = [a]) := by
  refine ⟨rfl, ?_, ?_⟩
  · intro hl hw
    have hd : isDuplicate e a = true := by
      simp [isDuplicate, hl, hw]
    unfold evaluateEngine processTriggered
    simp [hd]
  · intro hl hw
    have hd : isDuplicate e a = false := by
      simp [isDuplicate, hl]
      omega
    constructor <;>
      · unfold evaluateEngine processTriggered
        simp [hd, recordFired]

/-- Witness for C8 at concrete inputs: the 30 s re-trigger is
suppressed, the 60 s one fires. -/
theorem C8_dedup_window_witness :
    (evaluateEngine c8Engine [c8AlertEarly] = (c8Engine, []))
  ∧ ((evaluateEngine c8Engine [c8AlertLate]).1.alerts = c8Engine.alerts ++ [c8AlertLate]
      ∧ (evaluateEngine c8Engine [c8AlertLate]).2 = [c8AlertLate]) :=
  ⟨(C8_dedup_window c8Engine c8AlertEarly 0).2.1 (by decide) (by decide),
   (C8_dedup_window c8Engine c8AlertLate 0).2.2 (by decide) (by decide)⟩

/-- C9: `classify` is a pure function with the spec's decision order —
received data always yields Connected; with telemetry enabled and a
non-empty endpoint set, the endpoint is parsed (bare `host:port`
prefixed with `http://`, explicit port used, else 80/http and
443/https) and the port compared with the configured port, equal
giving Waiting and unequal WrongPort; endpoint `http://localhost:9090`
against configured port 4317 gives WrongPort without data and Connected
with data. -/
theorem C9_classifier_decision_order (proc : ProcessInfo) (cp : ℤ) (v e : String) :
    (classifyTelemetry proc cp true
      = { status := .connected, icon := "✅", label := "Connected" })
  ∧ (proc.envReadable = true →
      lookupAttr proc.envVars "CLAUDE_CODE_ENABLE_TELEMETRY" = some v →
      v ≠ "0" → v ≠ "" →
      lookupAttr proc.envVars "OTEL_EXPORTER_OTLP_ENDPOINT" = some e → e ≠ "" →
      classifyTelemetry proc cp false =
        if extractPort e cp = cp then connectedOrWaiting false
        else { status := .wrongPort, icon := "⚠️", label := "Wrong port" })
  ∧ (connectedOrWaiting false
      = { status := .waiting, icon := "✅", label := "Waiting..." })
  ∧ (extractPort "localhost:9090" 4317 = 9090
      ∧ extractPort "http://localhost:9090" 4317 = 9090
      ∧ extractPort "http://localhost" 4317 = 80
      ∧ extractPort "https://localhost" 4317 = 443)
  ∧ ((classifyTelemetry procS4 4317 false).status = .wrongPort
      ∧ (classifyTelemetry procS4 4317 true).status = .connected) := by
  refine ⟨rfl, ?_, rfl, by decide, by decide⟩
  intro h1 h2 h3 h4 h5 h6
  simp +decide [classifyTelemetry, h1, h2, h3, h4, h5, h6]

/-- Witness for C9 at concrete inputs: the decision-order clause applied
to the S4 process, whose endpoint port 9090 differs from 4317. -/
theorem C9_classifier_decision_order_witness :
    classifyTelemetry procS4 4317 false =
      if extractPort "http://localhost:9090" 4317 = 4317 then connectedOrWaiting false
      else { status := .wrongPort, icon := "⚠️", label := "Wrong port" } :=
  (C9_classifier_decision_order procS4 4317 "1" "http://localhost:9090").2.1
    rfl (by decide) (by decide) (by decide) (by decide) (by decide)

/-- C10: with telemetry enabled and the endpoint a URL whose scheme is
neither http nor https and which has no explicit port, the port parser
returns `-1`, so `classify` returns WrongPort for every configured port
in 1..65535 while no data has been received. -/
theorem C10_unknown_scheme_wrong_port (cp : ℤ) (proc : ProcessInfo) (v e : String)
    (u : GoURL) :
    1 ≤ cp → cp ≤ 65535 →
    proc.envReadable = true →
    lookupAttr proc.envVars "CLAUDE_CODE_ENABLE_TELEMETRY" = some v →
    v ≠ "0" → v ≠ "" →
    lookupAttr proc.envVars "OTEL_EXPORTER_OTLP_ENDPOINT" = some e →
    e ≠ "" →
    containsSubstr e "://" = true →
    parseURL e = some u →
    u.port = "" → u.scheme ≠ "http" → u.scheme ≠ "https" →
    extractPort e cp = -1
    ∧ (classifyTelemetry proc cp false).status = .wrongPort := by
  intro hcp1 hcp2 h1 h2 h3 h4 h5 h6 h7 h8 h9 h10 h11
  have hep : extractPort e cp = -1 := by
    simp [extractPort, h7, h8, h9, h10, h11]
  have hne : ¬((-1 : ℤ) = cp) := by omega
  constructor
  · exact hep
  · simp +decide [classifyTelemetry, h1, h2, h3, h4, h5, h6, hep, hne]

/-- Witness for C10 at concrete inputs: `grpc://localhost` against
configured port 4317. -/
theorem C10_unknown_scheme_wrong_port_witness :
    extractPort "grpc://localhost" 4317 = -1
    ∧ (classifyTelemetry procGrpc 4317 false).status = .wrongPort :=
  C10_unknown_scheme_wrong_port 4317 procGrpc "1" "grpc://localhost"
    { scheme := "grpc", host := "localhost", port := "" }
    (by decide) (by decide) rfl (by decide) (by decide) (by decide)
    (by decide) (by decide) (by decide) (by decide) (by decide)
    (by decide) (by decide)

end CcTop
